import Mathlib

/-!
Verification of the Modbus→MQTT bridge core against its design document.

The development shallowly embeds the four Python modules:
* `config_parser.py` — `ModbusRegister` (with `apply_scaling`), `ModbusDevice`,
  `ConfigParser._parse_register` and its `TYPE_MAPPING`;
* `modbus_poller.py` — `ModbusPoller._decode_registers`, `ModbusPoller.read_register`
  and `ModbusPoller.poll_device` (the latter instrumented with an event trace so that
  pacing/lock claims can be stated);
* `mqtt_publisher.py` — `MQTTPublisher.publish` as its published-message sequence;
* `main.py` — one iteration of `DevicePoller.run` (publish guard plus inter-cycle sleep).

Python numbers are modelled by `PyVal` (an `int` or a `float`); float arithmetic is
modelled exactly over `ℚ`, and the IEEE bit-pattern interpretation used by
`struct.unpack` for `float32`/`float64` is kept abstract as a `FloatInterp` parameter,
while the byte-level behaviour of `struct.pack`/`struct.unpack` (endianness and sign
reinterpretation) is modelled concretely by `packBytes`/`bytesToNat`/`toSigned`.
Division by a zero `divider` raises in Python; the ℚ model is total, so theorems that
depend on `apply_scaling` carry a `divider ≠ 0` hypothesis where relevant.
-/

namespace Bridge

/-- A Python numeric value: either an `int` or a `float` (modelled exactly as `ℚ`). -/
inductive PyVal
| int (n : ℤ)
| float (q : ℚ)
deriving DecidableEq, Repr

/-- The rational magnitude of a Python numeric value. -/
def PyVal.toRat : PyVal → ℚ
| .int n => n
| .float q => q

/-- `ModbusRegister` from `config_parser.py`: one addressable quantity on a device. -/
structure ModbusRegister where
  tag : String
  address : ℕ
  function_code : ℕ
  count : ℕ
  data_type : String
  divider : ℚ := 1
  multiplier : ℚ := 1
deriving DecidableEq, Repr

/-- `ModbusRegister.needs_scaling`: scaling applies when either factor differs from 1. -/
def ModbusRegister.needs_scaling (r : ModbusRegister) : Prop :=
  r.multiplier ≠ 1 ∨ r.divider ≠ 1

instance (r : ModbusRegister) : Decidable r.needs_scaling :=
  inferInstanceAs (Decidable (r.multiplier ≠ 1 ∨ r.divider ≠ 1))

/-- `ModbusRegister.is_integer_type`: membership of `data_type` in the integer kinds. -/
def ModbusRegister.is_integer_type (r : ModbusRegister) : Prop :=
  r.data_type ∈ ["uint16", "int16", "uint32", "int32", "uint64", "int64"]

instance (r : ModbusRegister) : Decidable r.is_integer_type :=
  inferInstanceAs (Decidable (_ ∈ _))

/-- `ModbusRegister.apply_scaling`: divide/multiply, and return an `int` when the
register is of integer kind and the scaled result is a whole number (`result == int(result)`
in the source, i.e. denominator 1 in the exact model). -/
def ModbusRegister.apply_scaling (r : ModbusRegister) (v : PyVal) : PyVal :=
  if ¬ r.needs_scaling then v
  else
    let result : ℚ := v.toRat * r.multiplier / r.divider
    if r.is_integer_type ∧ result.den = 1 then .int result.num else .float result

/-- `ModbusDevice` from `config_parser.py`: one physical unit on a serial transport. -/
structure ModbusDevice where
  name : String
  device_type : String
  unit_id : ℕ
  port : String
  baudrate : ℕ
  parity : String
  stopbits : ℕ
  bytesize : ℕ
  timeout : ℚ
  poll_period : ℕ
  byte_order : String := "BIG"
  word_order : String := "BIG"
  registers : List ModbusRegister := []
deriving DecidableEq, Repr

/-- Big-endian byte list (most significant first) of the low `w` bytes of `n`,
as produced by `struct.pack` with the `>` prefix. -/
def beBytes : ℕ → ℕ → List ℕ
| 0, _ => []
| w + 1, n => (n / 2 ^ (8 * w)) % 256 :: beBytes w n

/-- `struct.pack` of an unsigned `w`-byte integer: big-endian bytes for `>`
(`bigEndian = true`), the reversed byte sequence for `<`. -/
def packBytes (bigEndian : Bool) (w n : ℕ) : List ℕ :=
  if bigEndian then beBytes w n else (beBytes w n).reverse

/-- Read a byte list as a big-endian unsigned integer. -/
def bytesToNatBE (bs : List ℕ) : ℕ :=
  bs.foldl (fun a b => a * 256 + b) 0

/-- `struct.unpack` of an unsigned integer from a byte list, honoring endianness. -/
def bytesToNat (bigEndian : Bool) (bs : List ℕ) : ℕ :=
  if bigEndian then bytesToNatBE bs else bytesToNatBE bs.reverse

/-- Two's-complement reinterpretation of a `w`-byte unsigned value as signed. -/
def toSigned (w n : ℕ) : ℤ :=
  if n < 2 ^ (8 * w - 1) then (n : ℤ) else (n : ℤ) - 2 ^ (8 * w)

/-- `struct.unpack` of a signed `w`-byte integer from a byte list. -/
def unpackSigned (bigEndian : Bool) (w : ℕ) (bs : List ℕ) : ℤ :=
  toSigned w (bytesToNat bigEndian bs)

/-- Abstract IEEE-754 interpretation used by `struct.unpack` for the `f`/`d` formats:
a function from the 32-bit (resp. 64-bit) pattern, read with the chosen endianness,
to the exact value of the resulting Python float. -/
structure FloatInterp where
  f32 : ℕ → ℚ
  f64 : ℕ → ℚ

/-- A degenerate interpretation, used to instantiate theorems at concrete inputs
whose register types never reach a float branch. -/
def fiZero : FloatInterp := ⟨fun _ => 0, fun _ => 0⟩

/-- `ModbusPoller._decode_registers`: length guard, word assembly by `word_order`,
type reinterpretation through same-endianness pack/unpack, then scaling. -/
def decodeRegisters (fi : FloatInterp) (registers : List ℕ) (register : ModbusRegister)
    (device : ModbusDevice) : Option PyVal :=
  if registers.length < register.count then none
  else
    let bb : Bool := device.byte_order = "BIG"
    let r0 := registers.getD 0 0
    let r1 := registers.getD 1 0
    let r2 := registers.getD 2 0
    let r3 := registers.getD 3 0
    if register.count = 1 then
      let value : PyVal :=
        if register.data_type = "uint16" then .int r0
        else if register.data_type = "int16" then
          .int (unpackSigned bb 2 (packBytes bb 2 r0))
        else .int r0
      some (register.apply_scaling value)
    else if register.count = 2 then
      let raw : ℕ :=
        if device.word_order = "BIG" then r0 <<< 16 ||| r1 else r1 <<< 16 ||| r0
      let value : PyVal :=
        if register.data_type = "uint32" then .int raw
        else if register.data_type = "int32" then
          .int (unpackSigned bb 4 (packBytes bb 4 raw))
        else if register.data_type = "float32" then
          .float (fi.f32 (bytesToNat bb (packBytes bb 4 raw)))
        else .int raw
      some (register.apply_scaling value)
    else if register.count = 4 then
      let raw : ℕ :=
        if device.word_order = "BIG" then
          r0 <<< 48 ||| r1 <<< 32 ||| r2 <<< 16 ||| r3
        else
          r3 <<< 48 ||| r2 <<< 32 ||| r1 <<< 16 ||| r0
      let value : PyVal :=
        if register.data_type = "uint64" then .int raw
        else if register.data_type = "int64" then
          .int (unpackSigned bb 8 (packBytes bb 8 raw))
        else if register.data_type = "float64" then
          .float (fi.f64 (bytesToNat bb (packBytes bb 8 raw)))
        else .int raw
      some (register.apply_scaling value)
    else none

/-- The pymodbus response consumed by `read_register`: an error flag, the coil bits
(for function codes 1/2) and the register words (for function codes 3/4). The
transport itself is an external collaborator, so the response is an input. -/
structure ModbusResponse where
  isError : Bool
  bits : List Bool
  registers : List ℕ
deriving DecidableEq, Repr

/-- `ModbusPoller.read_register`: dispatch on the function code, reject error
responses, return the first coil bit as `0.0`/`1.0` for codes 1/2 (an empty bit
list raises `IndexError`, which the enclosing handler turns into `None`), and
decode register words for codes 3/4. Unsupported codes yield `None`. -/
def read_register (fi : FloatInterp) (resp : ModbusResponse) (device : ModbusDevice)
    (register : ModbusRegister) : Option PyVal :=
  if register.function_code = 1 ∨ register.function_code = 2 ∨
      register.function_code = 3 ∨ register.function_code = 4 then
    if resp.isError then none
    else if register.function_code = 1 ∨ register.function_code = 2 then
      match resp.bits with
      | [] => none
      | b :: _ => some (.float (if b then 1 else 0))
    else decodeRegisters fi resp.registers register device
  else none

/-- The `Reading` produced by one `poll_device` call. `data` models the Python dict
as an insertion-ordered association list. -/
structure Reading where
  device : String
  device_type : String
  unit_id : ℕ
  status : String
  data : List (String × PyVal)
deriving DecidableEq, Repr

/-- Python-dict assignment `d[k] = v` on an insertion-ordered association list:
overwrite in place when the key exists, append otherwise. -/
def dictInsert (d : List (String × PyVal)) (k : String) (v : PyVal) :
    List (String × PyVal) :=
  if d.any (fun p => p.1 = k) then
    d.map (fun p => if p.1 = k then (k, v) else p)
  else d ++ [(k, v)]

/-- The register sweep of `poll_device`: walk the (register, read outcome) pairs in
declaration order, storing each successful value under its tag and counting successes. -/
def sweepAux : List (String × PyVal) → ℕ → List (ModbusRegister × Option PyVal) →
    List (String × PyVal) × ℕ
| acc, cnt, [] => (acc, cnt)
| acc, cnt, (r, some v) :: rest => sweepAux (dictInsert acc r.tag v) (cnt + 1) rest
| acc, cnt, (_, none) :: rest => sweepAux acc cnt rest

/-- Scheduling events of one device's execution unit: taking/releasing the
key-scoped transport lock, one register read, the fixed 80 ms inter-request pacing
delay, the inter-cycle sleep of `poll_interval`, and the 5 s error cooldown. -/
inductive Ev
| acquire
| regRead
| sleepPacing
| release
| sleepInterval
| sleepCooldown
deriving DecidableEq, Repr

/-- `ModbusPoller.poll_device`, instrumented with its event trace. `clientOk` is the
outcome of `get_client` (the transport acquisition) and `outs` the outcome of
`read_register` for each register in declaration order; both are environment inputs.
When the transport is unavailable the result is a `disconnected` Reading with empty
data and no lock activity; otherwise the sweep runs under the key-scoped lock, with
the pacing sleep after every read, and the status is `connected` exactly when at
least one register succeeded. -/
def poll_device_tr (device : ModbusDevice) (clientOk : Bool)
    (outs : List (Option PyVal)) : Reading × List Ev :=
  if clientOk = false then
    ({ device := device.name, device_type := device.device_type,
       unit_id := device.unit_id, status := "disconnected", data := [] }, [])
  else
    let swept := sweepAux [] 0 (device.registers.zip outs)
    ({ device := device.name, device_type := device.device_type,
       unit_id := device.unit_id,
       status := if 0 < swept.2 then "connected" else "error",
       data := swept.1 },
     Ev.acquire ::
       ((device.registers.map fun _ => [Ev.regRead, Ev.sleepPacing]).flatten ++
        [Ev.release]))

/-- `ModbusPoller.poll_device`: the Reading alone. -/
def poll_device (device : ModbusDevice) (clientOk : Bool)
    (outs : List (Option PyVal)) : Reading :=
  (poll_device_tr device clientOk outs).1

/-- The event trace of one non-faulting iteration of `DevicePoller.run`: the poll
(with its lock and pacing events) followed by the inter-cycle sleep of
`poll_interval`, which happens after `poll_device` has returned, outside the lock. -/
def cycleTrace (device : ModbusDevice) (clientOk : Bool)
    (outs : List (Option PyVal)) : List Ev :=
  (poll_device_tr device clientOk outs).2 ++ [Ev.sleepInterval]

/-- Whether an event is one of the three suspension points. -/
def isSleep : Ev → Bool
| .sleepPacing => true
| .sleepInterval => true
| .sleepCooldown => true
| _ => false

/-- Count the sleep events of a trace that occur while the lock depth is positive,
starting from lock depth `d`. -/
def lockedSleeps : ℕ → List Ev → ℕ
| _, [] => 0
| d, Ev.acquire :: rest => lockedSleeps (d + 1) rest
| d, Ev.release :: rest => lockedSleeps (d - 1) rest
| d, e :: rest => (if isSleep e ∧ 0 < d then 1 else 0) + lockedSleeps d rest

/-- The messages `MQTTPublisher.publish` emits for one Reading. -/
inductive Msg
| statusMsg
| telemetryMsg
| tagMsg (tag : String)
deriving DecidableEq, Repr

/-- `MQTTPublisher.publish`: nothing when the client is not connected; otherwise the
status message, then — only when `data` is non-empty — the aggregate telemetry
message and, if its publish succeeded (`telemetryOk`), one message per tag. Returns
the published messages and the function's boolean result. -/
def publish (connected telemetryOk : Bool) (reading : Reading) : List Msg × Bool :=
  if connected = false then ([], false)
  else if reading.data.isEmpty then ([Msg.statusMsg], false)
  else if telemetryOk then
    (Msg.statusMsg :: Msg.telemetryMsg :: reading.data.map (fun p => Msg.tagMsg p.1),
     true)
  else ([Msg.statusMsg, Msg.telemetryMsg], false)

/-- The messages emitted during one iteration of `DevicePoller.run`: `publish` is
invoked only when the Reading's `data` is non-empty (`if device_data['data']:`). -/
def cycleMessages (connected telemetryOk : Bool) (reading : Reading) : List Msg :=
  if reading.data.isEmpty then [] else (publish connected telemetryOk reading).1

/-- One raw register entry of the ThingsBoard configuration, with optional fields
modelled as `Option` (a missing mandatory key raises `KeyError`, which
`_parse_register` catches and turns into `None`). -/
structure RegConfig where
  tag : Option String
  address : Option ℕ
  functionCode : Option ℕ
  type : Option String
  objectsCount : Option ℕ
  divider : Option ℚ
  multiplier : Option ℚ
deriving DecidableEq, Repr

/-- `ConfigParser.TYPE_MAPPING`: ThingsBoard type tag → (valueType, default word count),
as a keyed lookup. -/
def TYPE_MAPPING (s : String) : Option (String × ℕ) :=
  if s = "16uint" then some ("uint16", 1)
  else if s = "16int" then some ("int16", 1)
  else if s = "32uint" then some ("uint32", 2)
  else if s = "32int" then some ("int32", 2)
  else if s = "32float" then some ("float32", 2)
  else if s = "float" then some ("float32", 2)
  else if s = "double" then some ("float64", 4)
  else if s = "64int" then some ("int64", 4)
  else if s = "64uint" then some ("uint64", 4)
  else none

/-- `ConfigParser._parse_register`: defaulted type lookup (unknown tags fall back to
`('uint16', 1)`), word count from `objectsCount` when present else the type's
default, and `None` when a mandatory key is missing. -/
def parse_register (cfg : RegConfig) : Option ModbusRegister :=
  match cfg.tag, cfg.address, cfg.functionCode with
  | some tag, some addr, some fc =>
    let data_type := cfg.type.getD "16uint"
    let mapped := (TYPE_MAPPING data_type).getD ("uint16", 1)
    some { tag := tag, address := addr, function_code := fc,
           count := cfg.objectsCount.getD mapped.2, data_type := mapped.1,
           divider := cfg.divider.getD 1, multiplier := cfg.multiplier.getD 1 }
  | _, _, _ => none

/-- Modelled from the spec (§3 invariant): the word count each `valueType` width
requires — 16-bit types one word, 32-bit two, 64-bit four. Used only to compare the
load-time behaviour of `parse_register` against the spec's invariant. -/
def specWordCount (s : String) : ℕ :=
  if s = "uint16" ∨ s = "int16" then 1
  else if s = "uint32" ∨ s = "int32" ∨ s = "float32" then 2
  else if s = "uint64" ∨ s = "int64" ∨ s = "float64" then 4
  else 0

/-! ### Concrete fixtures used by witnesses and counterexamples -/

/-- A plain one-word holding register with no scaling. -/
def exReg16 : ModbusRegister :=
  { tag := "temp", address := 0, function_code := 3, count := 1, data_type := "uint16" }

/-- A two-word unsigned holding register with no scaling. -/
def exRegU32 : ModbusRegister :=
  { tag := "energy", address := 2, function_code := 3, count := 2, data_type := "uint32" }

/-- A one-word register scaled by `divider = 2`. -/
def exRegDiv2 : ModbusRegister :=
  { tag := "t2", address := 0, function_code := 3, count := 1, data_type := "uint16",
    divider := 2 }

/-- A one-word register scaled by `divider = 3`. -/
def exRegDiv3 : ModbusRegister :=
  { tag := "t3", address := 0, function_code := 3, count := 1, data_type := "uint16",
    divider := 3 }

/-- A coil register carrying (deliberately) non-trivial scaling configuration. -/
def exCoilReg : ModbusRegister :=
  { tag := "run", address := 0, function_code := 1, count := 1, data_type := "uint16",
    divider := 10, multiplier := 3 }

/-- A device with Big byte and word order and no registers. -/
def exDevBig : ModbusDevice :=
  { name := "dev", device_type := "meter", unit_id := 1, port := "/dev/ttyUSB0",
    baudrate := 9600, parity := "N", stopbits := 1, bytesize := 8,
    timeout := 35 / 1000, poll_period := 1000 }

/-- The same device with Little word order. -/
def exDevLittle : ModbusDevice :=
  { exDevBig with word_order := "LITTLE" }

/-- The Big-order device with a single configured register. -/
def exDev1 : ModbusDevice :=
  { exDevBig with registers := [exReg16] }

/-- A successful single-coil response. -/
def respBit : ModbusResponse :=
  { isError := false, bits := [true], registers := [] }

/-- The Reading of a cycle whose transport acquisition failed. -/
def discReading : Reading :=
  { device := "dev", device_type := "meter", unit_id := 1,
    status := "disconnected", data := [] }

/-- A register configuration whose explicit word count contradicts its value type:
type tag `32uint` (a two-word type) with `objectsCount = 1`. -/
def mismatchCfg : RegConfig :=
  { tag := some "t", address := some 0, functionCode := some 3,
    type := some "32uint", objectsCount := some 1, divider := none, multiplier := none }

/-- The register `parse_register` builds from `mismatchCfg`. -/
def mismatchReg : ModbusRegister :=
  { tag := "t", address := 0, function_code := 3, count := 1, data_type := "uint32" }

/-! ### Helper lemmas -/

/-- Folding the big-endian byte expansion accumulates exactly the low `w` bytes. -/
theorem foldl_beBytes (w : ℕ) : ∀ a n : ℕ,
    (beBytes w n).foldl (fun a b => a * 256 + b) a = a * 2 ^ (8 * w) + n % 2 ^ (8 * w) := by
  induction w with
  | zero => intro a n; simp [beBytes, Nat.mod_one]
  | succ w ih =>
    intro a n
    rw [beBytes, List.foldl_cons, ih]
    have h256 : 2 ^ (8 * (w + 1)) = 2 ^ (8 * w) * 256 := by
      rw [Nat.mul_succ, pow_add]; norm_num
    rw [h256, Nat.mod_mul]
    ring

/-- Packing then unpacking an unsigned integer with one and the same endianness
recovers the integer modulo its width, for either endianness. -/
theorem bytesToNat_packBytes (b : Bool) (w n : ℕ) :
    bytesToNat b (packBytes b w n) = n % 2 ^ (8 * w) := by
  cases b <;>
    simp [bytesToNat, packBytes, bytesToNatBE, List.reverse_reverse, foldl_beBytes]

/-- Same-endianness pack/unpack of a signed integer is plain sign reinterpretation. -/
theorem unpackSigned_packBytes (b : Bool) (w n : ℕ) :
    unpackSigned b w (packBytes b w n) = toSigned w (n % 2 ^ (8 * w)) := by
  rw [unpackSigned, bytesToNat_packBytes]

/-- `apply_scaling` is the identity when no scaling is configured. -/
theorem ModbusRegister.apply_scaling_id (r : ModbusRegister) (v : PyVal)
    (h : ¬ r.needs_scaling) : r.apply_scaling v = v := by
  rw [ModbusRegister.apply_scaling, if_pos h]

/-! ### Claim theorems -/

/-- C1: decoding a 2-word unsigned register value assembles the raw integer
according to the device's word order — Big puts the first-received word in the
most-significant position, Little reverses the word positions. -/
theorem decode_word_order (fi : FloatInterp) (device : ModbusDevice)
    (register : ModbusRegister) (w0 w1 : ℕ) (rest : List ℕ)
    (hc : register.count = 2) (ht : register.data_type = "uint32")
    (hm : register.multiplier = 1) (hd : register.divider = 1) :
    decodeRegisters fi (w0 :: w1 :: rest) register device =
      some (.int (if device.word_order = "BIG" then w0 <<< 16 ||| w1
                  else w1 <<< 16 ||| w0)) := by
  have hlen : ¬ ((w0 :: w1 :: rest).length < register.count) := by
    simp [hc]
  have hsc : ∀ v, register.apply_scaling v = v := fun v =>
    register.apply_scaling_id v (by simp [ModbusRegister.needs_scaling, hm, hd])
  rw [decodeRegisters, if_neg hlen]
  simp [hc, ht, hsc]

/-- Witness for C1 at the spec's own vector: raw words `[0x0001, 0x0000]` decode to
`65536` under Big word order and to `1` under Little word order. -/
theorem decode_word_order_witness :
    decodeRegisters fiZero [1, 0] exRegU32 exDevBig = some (.int 65536) ∧
    decodeRegisters fiZero [1, 0] exRegU32 exDevLittle = some (.int 1) := by
  constructor
  · rw [decode_word_order fiZero exDevBig exRegU32 1 0 [] rfl rfl rfl rfl]
    decide
  · rw [decode_word_order fiZero exDevLittle exRegU32 1 0 [] rfl rfl rfl rfl]
    decide

/-- C5: a raw word sequence shorter than the register's word count fails the
completeness guard, which runs before any word assembly, and decodes to nothing. -/
theorem decode_incomplete (fi : FloatInterp) (registers : List ℕ)
    (register : ModbusRegister) (device : ModbusDevice)
    (h : registers.length < register.count) :
    decodeRegisters fi registers register device = none := by
  rw [decodeRegisters, if_pos h]

/-- Witness for C5: one raw word against a two-word register decodes to nothing. -/
theorem decode_incomplete_witness :
    decodeRegisters fiZero [7] exRegU32 exDevBig = none :=
  decode_incomplete fiZero [7] exRegU32 exDevBig (by decide)

/-- C2: for an integer-typed register with scaling configured, the scaled result is
an `int` exactly when `(value * multiplier) / divider` is mathematically whole, and
a float otherwise. (`divider ≠ 0` because a zero divider raises in the source.) -/
theorem apply_scaling_integral (r : ModbusRegister) (v : PyVal)
    (hint : r.is_integer_type) (hs : r.needs_scaling) (_hd : r.divider ≠ 0) :
    r.apply_scaling v =
      if (v.toRat * r.multiplier / r.divider).den = 1 then
        .int (v.toRat * r.multiplier / r.divider).num
      else .float (v.toRat * r.multiplier / r.divider) := by
  rw [ModbusRegister.apply_scaling, if_neg (not_not_intro hs)]
  dsimp only
  by_cases h : (v.toRat * r.multiplier / r.divider).den = 1
  · rw [if_pos ⟨hint, h⟩, if_pos h]
  · rw [if_neg (fun hc => h hc.2), if_neg h]

/-- Witness for C2 at the spec's vectors: raw `100` with `divider = 2` scales to the
integer `50`; with `divider = 3` it scales to the non-integral float `100/3`. -/
theorem apply_scaling_integral_witness :
    exRegDiv2.apply_scaling (.int 100) = .int 50 ∧
    exRegDiv3.apply_scaling (.int 100) = .float (100 / 3) := by
  constructor
  · rw [apply_scaling_integral exRegDiv2 (.int 100) (by decide)
      (Or.inr (by norm_num [exRegDiv2])) (by norm_num [exRegDiv2])]
    norm_num [PyVal.toRat, exRegDiv2]
  · rw [apply_scaling_integral exRegDiv3 (.int 100) (by decide)
      (Or.inr (by norm_num [exRegDiv3])) (by norm_num [exRegDiv3])]
    norm_num [PyVal.toRat, exRegDiv3]

/-- C10: the decoded value of any register is identical whether the device's byte
order is Big, Little, or anything else — the source packs and unpacks the assembled
integer with one and the same endianness symbol, which cancels. -/
theorem decode_byte_order_irrelevant (fi : FloatInterp) (registers : List ℕ)
    (register : ModbusRegister) (device : ModbusDevice) (bo : String) :
    decodeRegisters fi registers register { device with byte_order := bo } =
      decodeRegisters fi registers register device := by
  simp only [decodeRegisters, unpackSigned_packBytes, bytesToNat_packBytes]

/-- C4: a coil or discrete-input read (function codes 1 and 2) bypasses word
assembly and scaling — whatever the configured multiplier and divider, any value it
produces is exactly the float `0` or the float `1`. -/
theorem read_register_coil_bit (fi : FloatInterp) (resp : ModbusResponse)
    (device : ModbusDevice) (register : ModbusRegister) (v : PyVal)
    (hfc : register.function_code = 1 ∨ register.function_code = 2)
    (hv : read_register fi resp device register = some v) :
    v = .float 0 ∨ v = .float 1 := by
  have hin : register.function_code = 1 ∨ register.function_code = 2 ∨
      register.function_code = 3 ∨ register.function_code = 4 := by tauto
  rw [read_register, if_pos hin] at hv
  by_cases he : resp.isError = true
  · rw [if_pos he] at hv; exact absurd hv (by simp)
  · rw [if_neg he, if_pos hfc] at hv
    cases hb : resp.bits with
    | nil => rw [hb] at hv; exact absurd hv (by simp)
    | cons b tail =>
      rw [hb] at hv
      cases b with
      | false => left; exact (Option.some_injective _ hv).symm
      | true => right; exact (Option.some_injective _ hv).symm

/-- Witness for C4: a coil register configured with `divider = 10`, `multiplier = 3`
still reads back as exactly `1.0`. -/
theorem read_register_coil_bit_witness :
    read_register fiZero respBit exDevBig exCoilReg = some (.float 1) ∧
    (PyVal.float 1 = .float 0 ∨ PyVal.float 1 = .float 1) :=
  ⟨by decide,
   read_register_coil_bit fiZero respBit exDevBig exCoilReg (.float 1)
     (Or.inl rfl) (by decide)⟩

/-- The success counter of the sweep counts exactly the successful read outcomes. -/
theorem sweepAux_snd (pairs : List (ModbusRegister × Option PyVal)) :
    ∀ acc cnt, (sweepAux acc cnt pairs).2 = cnt + pairs.countP (fun p => p.2.isSome) := by
  induction pairs with
  | nil => intro acc cnt; simp [sweepAux]
  | cons p rest ih =>
    intro acc cnt
    rcases p with ⟨r, o⟩
    cases o with
    | none => rw [sweepAux, ih]; simp [List.countP_cons]
    | some v => rw [sweepAux, ih]; simp [List.countP_cons]; omega

/-- Python-dict assignment never empties the dict. -/
theorem dictInsert_ne_nil (d : List (String × PyVal)) (k : String) (v : PyVal) :
    dictInsert d k v ≠ [] := by
  rw [dictInsert]
  by_cases h : d.any (fun p => p.1 = k) = true
  · rw [if_pos h]
    intro hmap
    rw [List.map_eq_nil_iff] at hmap
    rw [hmap] at h
    simp at h
  · rw [if_neg h]
    simp

/-- The sweep's data dict is empty exactly when it started empty and no read succeeded. -/
theorem sweepAux_fst_nil (pairs : List (ModbusRegister × Option PyVal)) :
    ∀ acc cnt, (sweepAux acc cnt pairs).1 = [] ↔
      acc = [] ∧ pairs.countP (fun p => p.2.isSome) = 0 := by
  induction pairs with
  | nil => intro acc cnt; simp [sweepAux]
  | cons p rest ih =>
    intro acc cnt
    rcases p with ⟨r, o⟩
    cases o with
    | none => rw [sweepAux, ih]; simp [List.countP_cons]
    | some v =>
      rw [sweepAux, ih]
      simp [List.countP_cons, dictInsert_ne_nil]

/-- C3: one poll cycle reports `disconnected` with empty values exactly when the
transport could not be acquired; with a transport it reports `connected` exactly
when at least one register decoded successfully, `error` exactly when none did, and
its values are empty exactly when nothing decoded. -/
theorem poll_status_classification (device : ModbusDevice) (clientOk : Bool)
    (outs : List (Option PyVal)) (h : outs.length = device.registers.length) :
    ((poll_device device clientOk outs).status = "disconnected" ↔ clientOk = false) ∧
    (clientOk = false → (poll_device device clientOk outs).data = []) ∧
    ((poll_device device clientOk outs).status = "connected" ↔
      clientOk = true ∧ 0 < outs.countP (fun o => o.isSome)) ∧
    ((poll_device device clientOk outs).status = "error" ↔
      clientOk = true ∧ outs.countP (fun o => o.isSome) = 0) ∧
    ((poll_device device clientOk outs).data = [] ↔
      clientOk = false ∨ outs.countP (fun o => o.isSome) = 0) := by
  have hzip : (device.registers.zip outs).countP (fun p => p.2.isSome) =
      outs.countP (fun o => o.isSome) := by
    have hmap := List.map_snd_zip device.registers outs (le_of_eq h)
    calc (device.registers.zip outs).countP (fun p => p.2.isSome)
        = ((device.registers.zip outs).map Prod.snd).countP (fun o => o.isSome) := by
          rw [List.countP_map]; rfl
      _ = outs.countP (fun o => o.isSome) := by rw [hmap]
  cases clientOk with
  | false => simp [poll_device, poll_device_tr]
  | true =>
    simp only [poll_device, poll_device_tr]
    by_cases hpos : 0 < (sweepAux [] 0 (device.registers.zip outs)).2
    · have hcnt : 0 < outs.countP (fun o => o.isSome) := by
        rw [sweepAux_snd, hzip] at hpos; simpa using hpos
      simp [hpos, sweepAux_fst_nil, hzip, hcnt, hcnt.ne']
    · have hcnt : outs.countP (fun o => o.isSome) = 0 := by
        rw [sweepAux_snd, hzip] at hpos; omega
      simp [hpos, sweepAux_fst_nil, hzip, hcnt]

/-- Witness for C3: with a transport and one successful register the cycle reports
`connected`. -/
theorem poll_status_classification_witness :
    (poll_device exDev1 true [some (.int 1)]).status = "connected" := by
  have h := poll_status_classification exDev1 true [some (.int 1)] (by decide)
  exact h.2.2.1.mpr ⟨rfl, by decide⟩

/-- The sweep's per-register events are one `[read, pacing]` block per register. -/
theorem sweep_blocks (l : List ModbusRegister) :
    (l.map fun _ => [Ev.regRead, Ev.sleepPacing]) =
      List.replicate l.length [Ev.regRead, Ev.sleepPacing] :=
  List.map_const' l [Ev.regRead, Ev.sleepPacing]

/-- Each `[read, pacing]` block of the sweep contributes one pacing sleep. -/
theorem flatten_pacing_count (n : ℕ) :
    ((List.replicate n [Ev.regRead, Ev.sleepPacing]).flatten).count Ev.sleepPacing =
      n := by
  induction n with
  | zero => rfl
  | succ n ih =>
    rw [List.replicate_succ, List.flatten_cons, List.count_append, ih]
    have h1 : List.count Ev.sleepPacing [Ev.regRead, Ev.sleepPacing] = 1 := rfl
    omega

/-- C6 counterexample: for the concrete one-register device, the sweep does not
observe the pacing delay `n − 1 = 0` times — the delay also runs after the last
register. -/
theorem pacing_count_cex :
    ¬ ((poll_device_tr exDev1 true [some (.int 1)]).2.count Ev.sleepPacing =
        exDev1.registers.length - 1) := by decide

/-- C6 (amended): one sweep with an available transport observes the fixed 80 ms
pacing delay after every register read, including the last — `n` times for `n`
registers, not `n − 1`. -/
theorem pacing_after_every_register (device : ModbusDevice)
    (outs : List (Option PyVal)) :
    (poll_device_tr device true outs).2.count Ev.sleepPacing =
      device.registers.length := by
  rw [poll_device_tr, if_neg (by simp)]
  dsimp only
  rw [sweep_blocks, List.count_cons, List.count_append, flatten_pacing_count]
  rfl

/-- Inside the locked sweep (`0 < d`), each `[read, pacing]` block contributes one
sleep taken while the lock is held. -/
theorem lockedSleeps_pacing_blocks (n : ℕ) (tail : List Ev) (d : ℕ) (hd : 0 < d) :
    lockedSleeps d ((List.replicate n [Ev.regRead, Ev.sleepPacing]).flatten ++ tail) =
      n + lockedSleeps d tail := by
  induction n with
  | zero => simp
  | succ n ih =>
    rw [List.replicate_succ, List.flatten_cons]
    simp only [List.cons_append, List.nil_append]
    simp [lockedSleeps, isSleep, hd, ih]
    omega

/-- C7 counterexample: in the concrete one-register cycle the execution unit does
sleep while holding the key-scoped transport lock (the pacing delay runs inside the
`with self.locks[key]` block). -/
theorem lock_across_sleep_cex :
    ¬ (lockedSleeps 0 (cycleTrace exDev1 true [some (.int 1)]) = 0) := by decide

/-- Each `[read, pacing]` block of the sweep contributes one sleep event. -/
theorem flatten_sleep_countP (n : ℕ) :
    ((List.replicate n [Ev.regRead, Ev.sleepPacing]).flatten).countP isSleep = n := by
  induction n with
  | zero => rfl
  | succ n ih =>
    rw [List.replicate_succ, List.flatten_cons, List.countP_append, ih]
    have h1 : List.countP isSleep [Ev.regRead, Ev.sleepPacing] = 1 := rfl
    omega

/-- C7 (amended): in every cycle with an available transport, the key-scoped lock is
held across each of the `n` inter-request pacing delays, while the remaining
suspension (the inter-cycle sleep) happens with the lock released. -/
theorem pacing_sleeps_under_lock (device : ModbusDevice)
    (outs : List (Option PyVal)) :
    lockedSleeps 0 (cycleTrace device true outs) = device.registers.length ∧
    (cycleTrace device true outs).countP isSleep = device.registers.length + 1 := by
  rw [cycleTrace, poll_device_tr, if_neg (by simp)]
  dsimp only
  rw [sweep_blocks]
  constructor
  · rw [List.cons_append, List.append_assoc]
    simp only [lockedSleeps]
    rw [lockedSleeps_pacing_blocks _ _ 1 one_pos]
    norm_num [lockedSleeps, isSleep]
  · rw [List.cons_append, List.countP_cons, List.append_assoc, List.countP_append]
    rw [flatten_sleep_countP]
    rfl

/-- C8 counterexample: a completed cycle whose Reading has empty values (here the
`disconnected` Reading) publishes no status message at all — `DevicePoller.run`
only calls `publish` when `data` is non-empty. -/
theorem status_message_cex :
    ¬ ((cycleMessages true true discReading).count Msg.statusMsg = 1) := by decide

/-- C8 (amended): a cycle publishes exactly one status message when its Reading has
non-empty values and the MQTT client is connected, and none otherwise — in
particular, `disconnected` and `error` cycles with empty values publish nothing. -/
theorem status_message_per_cycle (connected telemetryOk : Bool) (reading : Reading) :
    (cycleMessages connected telemetryOk reading).count Msg.statusMsg =
      if reading.data.isEmpty = false ∧ connected = true then 1 else 0 := by
  have htags : (reading.data.map fun p => Msg.tagMsg p.1).count Msg.statusMsg = 0 := by
    rw [List.count_eq_zero]
    simp
  rw [cycleMessages, publish]
  by_cases hdata : reading.data.isEmpty = true
  · simp [hdata]
  · cases connected with
    | false => simp [hdata, if_neg]
    | true =>
      cases telemetryOk with
      | false =>
        simp only [Bool.not_eq_true] at hdata
        simp [hdata, List.count_cons]
      | true =>
        simp only [Bool.not_eq_true] at hdata
        simp [hdata, List.count_cons, List.count_append, htags]

/-- C9 counterexample: a register configuration whose explicit `objectsCount = 1`
contradicts its two-word type tag `32uint` is accepted by `_parse_register` — it is
not rejected at load time, and carries the mismatched word count into decoding. -/
theorem wordcount_validation_cex :
    parse_register mismatchCfg = some mismatchReg ∧
    mismatchReg.count = 1 ∧ specWordCount mismatchReg.data_type = 2 := by decide

/-- Every pair the type table produces satisfies the spec's width table. -/
theorem TYPE_MAPPING_width (s : String) (p : String × ℕ)
    (h : TYPE_MAPPING s = some p) : specWordCount p.1 = p.2 := by
  rw [TYPE_MAPPING] at h
  repeat' split at h
  all_goals simp_all
  all_goals subst h
  all_goals decide

/-- C9 (amended): `_parse_register` performs no width validation — an accepted
register's word count is the explicit `objectsCount` when present (even when it
mismatches the value type), and only when `objectsCount` is absent does the default
from the type table match the value type's width. -/
theorem parse_register_count (cfg : RegConfig) (r : ModbusRegister)
    (h : parse_register cfg = some r) :
    r.count = cfg.objectsCount.getD
        (((TYPE_MAPPING (cfg.type.getD "16uint")).getD ("uint16", 1)).2) ∧
    r.data_type = ((TYPE_MAPPING (cfg.type.getD "16uint")).getD ("uint16", 1)).1 ∧
    (cfg.objectsCount = none → r.count = specWordCount r.data_type) := by
  obtain ⟨tagO, addrO, fcO, tyO, ocO, dvO, mlO⟩ := cfg
  rcases tagO with _ | tag
  · simp [parse_register] at h
  rcases addrO with _ | addr
  · simp [parse_register] at h
  rcases fcO with _ | fc
  · simp [parse_register] at h
  simp only [parse_register, Option.some.injEq] at h
  subst h
  refine ⟨rfl, rfl, ?_⟩
  intro hnone
  dsimp only at hnone ⊢
  subst hnone
  simp only [Option.getD_none]
  rcases hmap : TYPE_MAPPING (tyO.getD "16uint") with _ | p
  · decide
  · simp only [Option.getD_some]
    exact (TYPE_MAPPING_width _ p hmap).symm

/-- Witness for C9 (amended) at a mismatched configuration: the explicit word count
`1` is taken over the `32uint` default of `2`. -/
theorem parse_register_count_witness :
    mismatchReg.count = mismatchCfg.objectsCount.getD
        (((TYPE_MAPPING (mismatchCfg.type.getD "16uint")).getD ("uint16", 1)).2) ∧
    mismatchReg.data_type =
      ((TYPE_MAPPING (mismatchCfg.type.getD "16uint")).getD ("uint16", 1)).1 ∧
    (mismatchCfg.objectsCount = none →
      mismatchReg.count = specWordCount mismatchReg.data_type) :=
  parse_register_count mismatchCfg mismatchReg (by decide)

end Bridge
